import Mathlib

/-!
Verification of the iceoryx repository snapshot: shallow embedding of the
POSIX `SharedMemory` wrapper (iceoryx_hoofs shared_memory.cpp), the daemon
control-plane registry, the mempool allocator, the chunk distributor and the
subscriber chunk queue, together with the build-time deployment constants.
-/

namespace Iceoryx

/-! ### OS model

POSIX shared memory is modelled by the set of existing shared-memory names,
a counter giving out fresh file descriptors, and the set of open descriptors.
-/

structure OsState where
  names : List String
  nextFd : Int
  openFds : List Int
deriving DecidableEq

inductive Errno
| EEXIST
| ENOENT
deriving DecidableEq

/-- The `shm_open` call: with `O_CREAT | O_EXCL` the call creates the object and fails
with `EEXIST` when it already exists; without them it opens an existing object
and fails with `ENOENT` when there is none. -/
def iox_shm_open (name : String) (creatExcl : Bool) (os : OsState) :
    Except Errno Int × OsState :=
  if creatExcl then
    if name ∈ os.names then (Except.error Errno.EEXIST, os)
    else (Except.ok os.nextFd,
      { names := name :: os.names, nextFd := os.nextFd + 1,
        openFds := os.nextFd :: os.openFds })
  else
    if name ∈ os.names then
      (Except.ok os.nextFd,
        { os with nextFd := os.nextFd + 1, openFds := os.nextFd :: os.openFds })
    else (Except.error Errno.ENOENT, os)

/-- The `shm_unlink` call: removes the name, `ENOENT` when it does not exist. -/
def os_shm_unlink (name : String) (os : OsState) : Except Errno Unit × OsState :=
  if name ∈ os.names then
    (Except.ok (), { os with names := os.names.filter (fun n => decide (n ≠ name)) })
  else (Except.error Errno.ENOENT, os)

/-- The `close` call: the descriptor is no longer open afterwards. -/
def iox_close (fd : Int) (os : OsState) : OsState :=
  { os with openFds := os.openFds.filter (fun f => decide (f ≠ fd)) }

/-! ### SharedMemory (embedding of shared_memory.cpp) -/

inductive AccessMode
| READ_ONLY
| READ_WRITE
deriving DecidableEq

inductive Policy
| OPEN
| EXCLUSIVE_CREATE
| PURGE_AND_CREATE
| CREATE_OR_OPEN
deriving DecidableEq

inductive SharedMemoryError
| EMPTY_NAME
| NAME_WITHOUT_LEADING_SLASH
| DOES_EXIST
| DOES_NOT_EXIST
deriving DecidableEq

/-- Member state of `iox::posix::SharedMemory`. -/
structure SharedMemory where
  m_isInitialized : Bool
  m_name : String
  m_hasOwnership : Bool
  m_handle : Int
  m_errorValue : Option SharedMemoryError
deriving DecidableEq

/-- The oflags of `SharedMemory::getOflagsFor`, reduced to the two facts the
OS model consumes: read/write mode and whether `O_CREAT | O_EXCL` is set. -/
structure Oflags where
  writable : Bool
  creatExcl : Bool
deriving DecidableEq

def SharedMemory.getOflagsFor (accessMode : AccessMode) (policy : Policy) : Oflags :=
  { writable := if accessMode = AccessMode.READ_ONLY then false else true
  , creatExcl := if policy ≠ Policy.OPEN then true else false }

def SharedMemory.errnoToEnum (errnum : Errno) : SharedMemoryError :=
  match errnum with
  | Errno.EEXIST => SharedMemoryError.DOES_EXIST
  | Errno.ENOENT => SharedMemoryError.DOES_NOT_EXIST

/-- Outcome of `SharedMemory::open`: the returned bool, the updated member
state and OS state, and two ghost observations: whether this call created the
OS object and whether `ftruncate` was invoked. -/
structure OpenOutcome where
  success : Bool
  self : SharedMemory
  os : OsState
  created : Bool
  ftruncated : Bool
deriving DecidableEq

/-- Embedding of `SharedMemory::open`; `ftruncate` is modelled as succeeding. -/
def SharedMemory.open_ (s : SharedMemory) (accessMode : AccessMode)
    (policy : Policy) (os : OsState) : OpenOutcome :=
  let self1 : SharedMemory :=
    { s with m_hasOwnership :=
        decide (policy = Policy.EXCLUSIVE_CREATE ∨ policy = Policy.PURGE_AND_CREATE ∨
          policy = Policy.CREATE_OR_OPEN) }
  let os1 : OsState :=
    if policy = Policy.PURGE_AND_CREATE then (os_shm_unlink self1.m_name os).2 else os
  match iox_shm_open self1.m_name
      (SharedMemory.getOflagsFor accessMode policy).creatExcl os1 with
  | (Except.error e, os2) =>
    if policy = Policy.CREATE_OR_OPEN ∧ e = Errno.EEXIST then
      match iox_shm_open self1.m_name
          (SharedMemory.getOflagsFor accessMode Policy.OPEN).creatExcl os2 with
      | (Except.ok fd, os3) =>
        { success := true
        , self := { self1 with m_handle := fd, m_hasOwnership := false }
        , os := os3, created := false, ftruncated := false }
      | (Except.error e2, os3) =>
        { success := false
        , self := { self1 with m_errorValue := some (SharedMemory.errnoToEnum e2) }
        , os := os3, created := false, ftruncated := false }
    else
      { success := false
      , self := { self1 with m_errorValue := some (SharedMemory.errnoToEnum e) }
      , os := os2, created := false, ftruncated := false }
  | (Except.ok fd, os2) =>
    let self2 : SharedMemory := { self1 with m_handle := fd }
    if self2.m_hasOwnership then
      { success := true, self := self2, os := os2
      , created := (SharedMemory.getOflagsFor accessMode policy).creatExcl
      , ftruncated := true }
    else
      { success := true, self := self2, os := os2
      , created := (SharedMemory.getOflagsFor accessMode policy).creatExcl
      , ftruncated := false }

def SharedMemory.defaultState : SharedMemory :=
  { m_isInitialized := false, m_name := "", m_hasOwnership := false
  , m_handle := -1, m_errorValue := none }

/-- Outcome of the `SharedMemory` constructor, with a ghost observation of
whether `shm_open` was attempted at all. -/
structure CtorOutcome where
  self : SharedMemory
  os : OsState
  shmOpenAttempted : Bool
  created : Bool
deriving DecidableEq

/-- The `SharedMemory` constructor: name validation, then `open`. -/
def SharedMemory.construct (name : String) (accessMode : AccessMode)
    (policy : Policy) (os : OsState) : CtorOutcome :=
  let self0 : SharedMemory := { SharedMemory.defaultState with m_isInitialized := true }
  if name = "" then
    let bad : SharedMemory :=
      { self0 with
        m_isInitialized := false,
        m_errorValue := some SharedMemoryError.EMPTY_NAME }
    { self := bad, os := os, shmOpenAttempted := false, created := false }
  else if name.data.head? ≠ some '/' then
    let bad : SharedMemory :=
      { self0 with
        m_isInitialized := false,
        m_errorValue := some SharedMemoryError.NAME_WITHOUT_LEADING_SLASH }
    { self := bad, os := os, shmOpenAttempted := false, created := false }
  else
    let self1 : SharedMemory := { self0 with m_name := name }
    let o := SharedMemory.open_ self1 accessMode policy os
    { self := { o.self with m_isInitialized := o.success }
    , os := o.os, shmOpenAttempted := true, created := o.created }

/-- Embedding of `SharedMemory::close`: closes the descriptor and resets the handle. -/
def SharedMemory.close (s : SharedMemory) (os : OsState) : SharedMemory × OsState :=
  if s.m_isInitialized then
    ({ s with m_handle := -1 }, iox_close s.m_handle os)
  else (s, os)

def SharedMemory.unlinkIfExist (name : String) (os : OsState) : Bool × OsState :=
  match os_shm_unlink name os with
  | (Except.ok _, os2) => (true, os2)
  | (Except.error _, os2) => (false, os2)

/-- Outcome of `SharedMemory::unlink`, with a ghost observation of whether
`shm_unlink` was invoked. -/
structure UnlinkOutcome where
  result : Bool
  os : OsState
  unlinked : Bool
deriving DecidableEq

/-- Embedding of `SharedMemory::unlink`: unlinks the OS name only with ownership. -/
def SharedMemory.unlink (s : SharedMemory) (os : OsState) : UnlinkOutcome :=
  if s.m_isInitialized && s.m_hasOwnership then
    let r := SharedMemory.unlinkIfExist s.m_name os
    { result := r.1, os := r.2, unlinked := true }
  else
    { result := true, os := os, unlinked := false }

def SharedMemory.reset (s : SharedMemory) : SharedMemory :=
  { s with m_isInitialized := false, m_name := "", m_handle := -1 }

/-- Embedding of `SharedMemory::destroy` (invoked by the destructor): close, unlink, reset. -/
def SharedMemory.destroy (s : SharedMemory) (os : OsState) : SharedMemory × OsState :=
  if s.m_isInitialized then
    let c := SharedMemory.close s os
    let u := SharedMemory.unlink c.1 c.2
    (SharedMemory.reset c.1, u.os)
  else (s, os)

/-! ### Daemon control plane (process registry and IPC dispatch) -/

/-- Modelled from the spec: a registered process as the daemon sees it
(section 3 and `roudi/process.hpp`: name, session id, keep-alive timestamp,
owned ports); the `ProcessManager` sources are not in the snapshot. -/
structure DaemonProcess where
  name : String
  sessionId : Nat
  timestamp : Nat
  ports : List Nat
deriving DecidableEq

/-- Modelled from the spec: the daemon process registry with its monotonic
session-id counter (section 4.4). -/
structure DaemonState where
  processes : List DaemonProcess
  sessionCounter : Nat
deriving DecidableEq

def findProcess (st : DaemonState) (name : String) : Option DaemonProcess :=
  st.processes.find? (fun p => decide (p.name = name))

/-- Modelled from the spec: REGISTER handling of section 4.4 (fresh monotonic
session id when the name is free, `NameTaken` = `none` otherwise). -/
def registerProcess (st : DaemonState) (name : String) : Option (Nat × DaemonState) :=
  if (findProcess st name).isSome then none
  else
    let sid := st.sessionCounter + 1
    some (sid,
      { processes := { name := name, sessionId := sid, timestamp := 0, ports := [] }
          :: st.processes,
        sessionCounter := sid })

/-- Modelled from the spec: UNREGISTER handling of section 4.4 (the process
is removed from the registry). -/
def unregisterProcess (st : DaemonState) (name : String) : DaemonState :=
  { st with processes := st.processes.filter (fun p => decide (p.name ≠ name)) }

/-- Modelled from the spec: the IPC messages of section 6 that the claims
need; non-REGISTER messages carry the sender's session id. -/
inductive IpcMessage
| REGISTER (name : String)
| KEEP_ALIVE (name : String) (session : Nat) (now : Nat)
| CREATE_PUBLISHER (name : String) (session : Nat) (port : Nat)
| UNREGISTER (name : String) (session : Nat)
deriving DecidableEq

/-- The session id carried by a non-REGISTER message matches the session id
currently recorded for that process. -/
def sessionIsValid (st : DaemonState) (name : String) (session : Nat) : Bool :=
  match findProcess st name with
  | some p => decide (p.sessionId = session)
  | none => false

/-- A non-REGISTER message whose session id differs from the current session
id recorded for the named process (or names no live process). -/
def isStaleNonRegister (st : DaemonState) (msg : IpcMessage) : Bool :=
  match msg with
  | IpcMessage.REGISTER _ => false
  | IpcMessage.KEEP_ALIVE name session _ => !(sessionIsValid st name session)
  | IpcMessage.CREATE_PUBLISHER name session _ => !(sessionIsValid st name session)
  | IpcMessage.UNREGISTER name session => !(sessionIsValid st name session)

/-- Modelled from the spec: daemon IPC dispatch of section 4.4; every
non-REGISTER message is validated against the recorded session id and
discarded when stale. -/
def dispatch (st : DaemonState) (msg : IpcMessage) : DaemonState :=
  match msg with
  | IpcMessage.REGISTER name =>
    match registerProcess st name with
    | some r => r.2
    | none => st
  | IpcMessage.KEEP_ALIVE name session now =>
    if sessionIsValid st name session then
      { st with processes := st.processes.map (fun p =>
          if decide (p.name = name) then { p with timestamp := now } else p) }
    else st
  | IpcMessage.CREATE_PUBLISHER name session port =>
    if sessionIsValid st name session then
      { st with processes := st.processes.map (fun p =>
          if decide (p.name = name) then { p with ports := port :: p.ports } else p) }
    else st
  | IpcMessage.UNREGISTER name session =>
    if sessionIsValid st name session then unregisterProcess st name
    else st

/-! ### Memory pool -/

/-- Modelled from the spec: a mempool of section 4.1 — fixed capacity, a
free-list of chunk indices and the set of currently allocated chunk indices
(the mempool sources are not in the snapshot). -/
structure MemPool where
  capacity : Nat
  freeList : List Nat
  allocated : List Nat
deriving DecidableEq

/-- The `allocate(pool)` operation: pop a chunk off the free-list; `PoolEmpty` = `none`. -/
def MemPool.allocate (p : MemPool) : Option (Nat × MemPool) :=
  match p.freeList with
  | [] => none
  | c :: rest => some (c, { p with freeList := rest, allocated := c :: p.allocated })

/-- The `release(chunk)` operation: push the chunk back onto the free-list of its pool;
releasing a chunk that is not allocated is a detected double free (`none`). -/
def MemPool.release (p : MemPool) (c : Nat) : Option MemPool :=
  if c ∈ p.allocated then
    some { p with freeList := c :: p.freeList, allocated := p.allocated.erase c }
  else none

/-- A freshly carved pool: every chunk index on the free-list, none allocated. -/
def MemPool.init (n : Nat) : MemPool :=
  { capacity := n, freeList := List.range n, allocated := [] }

/-- The conservation law of section 8, invariant 1. -/
def MemPool.conserved (p : MemPool) : Prop :=
  p.freeList.length + p.allocated.length = p.capacity

/-- The pool states reachable from a freshly carved pool by allocate and
release operations. -/
inductive MemPool.Reachable : MemPool → Prop
| init (n : Nat) : MemPool.Reachable (MemPool.init n)
| alloc {p p' : MemPool} {c : Nat} (hp : MemPool.Reachable p)
    (h : p.allocate = some (c, p')) : MemPool.Reachable p'
| rel {p p' : MemPool} {c : Nat} (hp : MemPool.Reachable p)
    (h : p.release c = some p') : MemPool.Reachable p'

/-! ### Chunk distributor and subscriber chunk queue -/

/-- Modelled from the spec: the chunk distributor of section 4.2 — a bounded
set of subscriber queue references plus a bounded history ring (the
distributor sources are not in the snapshot). -/
structure ChunkDistributor where
  maxSubscribers : Nat
  historyCapacity : Nat
  subscriberQueues : List Nat
  history : List Nat
deriving DecidableEq

inductive ChunkDistributorError
| TOO_MANY_SUBSCRIBERS
deriving DecidableEq

/-- Modelled from the spec: the `add_subscriber(queue_ref, ...)` operation — append to the
bounded subscriber set, `TooManySubscribers` when full (section 4.2). -/
def ChunkDistributor.add_subscriber (d : ChunkDistributor) (q : Nat) :
    Except ChunkDistributorError ChunkDistributor :=
  if d.subscriberQueues.length < d.maxSubscribers then
    Except.ok { d with subscriberQueues := d.subscriberQueues ++ [q] }
  else Except.error ChunkDistributorError.TOO_MANY_SUBSCRIBERS

/-- Modelled from the spec: the `remove_subscriber(queue_ref)` operation — remove by
reference equality (section 4.2). -/
def ChunkDistributor.remove_subscriber (d : ChunkDistributor) (q : Nat) :
    ChunkDistributor :=
  { d with subscriberQueues := d.subscriberQueues.filter (fun x => decide (x ≠ q)) }

/-- The `ChunkReceiveResult` codes of the subscriber API (iox_subscriber_helloworld.cpp
matches on `NO_CHUNK_AVAILABLE`). -/
inductive ChunkReceiveResult
| NO_CHUNK_AVAILABLE
| TOO_MANY_CHUNKS_HELD_IN_PARALLEL
deriving DecidableEq

inductive QueueFullPolicy
| DISCARD_OLDEST_DATA
| BLOCK_PRODUCER
deriving DecidableEq

/-- Modelled from the spec: the bounded subscriber chunk queue of section 4.3
(front of the list = oldest entry). -/
structure ChunkQueue where
  capacity : Nat
  policy : QueueFullPolicy
  entries : List Nat
deriving DecidableEq

/-- Modelled from the spec: enqueue under the subscriber's overflow policy
(section 4.2); with DISCARD_OLDEST a full queue drops its oldest entry, with
BLOCK_PRODUCER the producer waits, so only a non-full push is modelled. -/
def ChunkQueue.push (q : ChunkQueue) (c : Nat) : ChunkQueue :=
  match q.policy with
  | QueueFullPolicy.DISCARD_OLDEST_DATA =>
    if q.entries.length < q.capacity then { q with entries := q.entries ++ [c] }
    else { q with entries := q.entries.tail ++ [c] }
  | QueueFullPolicy.BLOCK_PRODUCER =>
    if q.entries.length < q.capacity then { q with entries := q.entries ++ [c] }
    else q

/-- Modelled from the spec: the `take()` operation pops the oldest entry, failing with
`NO_CHUNK_AVAILABLE` on an empty queue (sections 4.3, scenario S1). -/
def ChunkQueue.take (q : ChunkQueue) :
    Except ChunkReceiveResult (Nat × ChunkQueue) :=
  match q.entries with
  | [] => Except.error ChunkReceiveResult.NO_CHUNK_AVAILABLE
  | c :: rest => Except.ok (c, { q with entries := rest })

/-- The scenario-S1 subscriber queue: capacity 8, DISCARD_OLDEST, after the
publisher delivered payloads 1, 2, 3 in order. -/
def s1Queue : ChunkQueue :=
  [1, 2, 3].foldl ChunkQueue.push
    { capacity := 8, policy := QueueFullPolicy.DISCARD_OLDEST_DATA, entries := [] }

/-! ### Build-time deployment constants (iceoryx_posh CMake table) -/

/-- The compile-time bounds table configured by the posh deployment CMake
file; field defaults are the values the CMake file sets when nothing
overrides them. -/
structure PoshDeployment where
  IOX_MAX_PORT_NUMBER : Nat
  IOX_MAX_INTERFACE_NUMBER : Nat
  IOX_MAX_RECEIVERS_PER_SENDERPORT : Nat
  IOX_MAX_SUBSCRIBERS_PER_PUBLISHER : Nat
  IOX_MAX_CHUNKS_ALLOCATE_PER_SENDER : Nat
  IOX_MAX_HISTORY_CAPACITY_OF_CHUNK_DISTRIBUTOR : Nat
  IOX_MAX_CHUNKS_HELD_PER_RECEIVER : Nat
deriving DecidableEq

/-- The default deployment: the values of the `set(... )` fallbacks. -/
def defaultDeployment : PoshDeployment :=
  { IOX_MAX_PORT_NUMBER := 1024
  , IOX_MAX_INTERFACE_NUMBER := 4
  , IOX_MAX_RECEIVERS_PER_SENDERPORT := 256
  , IOX_MAX_SUBSCRIBERS_PER_PUBLISHER := 256
  , IOX_MAX_CHUNKS_ALLOCATE_PER_SENDER := 8
  , IOX_MAX_HISTORY_CAPACITY_OF_CHUNK_DISTRIBUTOR := 16
  , IOX_MAX_CHUNKS_HELD_PER_RECEIVER := 256 }

/-! ### Theorems -/

/-- After removing a process, no process of that name is found. -/
theorem findProcess_unregister (st : DaemonState) (name : String) :
    findProcess (unregisterProcess st name) name = none := by
  simp only [findProcess, unregisterProcess, List.find?_eq_none, List.mem_filter,
    decide_eq_true_eq]
  intro p hp
  simpa using hp.2

/-- Removing a process does not change the session counter. -/
theorem unregister_sessionCounter (st : DaemonState) (name : String) :
    (unregisterProcess st name).sessionCounter = st.sessionCounter := rfl

/-- C2: for every process name n, register(n); unregister(n); register(n)
succeeds and the session id of the second registration is strictly greater
than the session id of the first. -/
theorem register_unregister_register_monotonic (st : DaemonState) (name : String)
    (sid1 : Nat) (st1 : DaemonState)
    (h : registerProcess st name = some (sid1, st1)) :
    ∃ sid2 st2, registerProcess (unregisterProcess st1 name) name = some (sid2, st2) ∧
      sid1 < sid2 := by
  unfold registerProcess at h
  by_cases hf : (findProcess st name).isSome
  · simp [hf] at h
  · simp only [hf, if_false, Bool.false_eq_true, if_neg] at h
    obtain ⟨hsid, hst⟩ := Prod.mk.injEq .. ▸ Option.some.injEq .. ▸ h
    have hreg : registerProcess (unregisterProcess st1 name) name =
        some ((unregisterProcess st1 name).sessionCounter + 1,
          DaemonState.mk
            (DaemonProcess.mk name ((unregisterProcess st1 name).sessionCounter + 1) 0 []
              :: (unregisterProcess st1 name).processes)
            ((unregisterProcess st1 name).sessionCounter + 1)) := by
      rw [registerProcess, findProcess_unregister]
      simp [registerProcess]
    refine ⟨_, _, hreg, ?_⟩
    rw [unregister_sessionCounter, ← hst]
    simp [← hsid]

/-- C3: the conservation law holds at every reachable mempool state. -/
theorem mempool_conservation (p : MemPool) (h : MemPool.Reachable p) :
    p.conserved := by
  induction h with
  | init n => simp [MemPool.init, MemPool.conserved]
  | alloc hp hstep ih =>
    rename_i p p' c
    unfold MemPool.allocate at hstep
    cases hl : p.freeList with
    | nil => rw [hl] at hstep; exact absurd hstep (by simp)
    | cons a rest =>
      rw [hl] at hstep
      simp only [Option.some.injEq, Prod.mk.injEq] at hstep
      obtain ⟨-, hp'⟩ := hstep
      unfold MemPool.conserved at ih ⊢
      rw [← hp']
      simp only [List.length_cons]
      rw [hl] at ih
      simp only [List.length_cons] at ih
      omega
  | rel hp hstep ih =>
    rename_i p p' c
    unfold MemPool.release at hstep
    by_cases hc : c ∈ p.allocated
    · rw [if_pos hc] at hstep
      simp only [Option.some.injEq] at hstep
      unfold MemPool.conserved at ih ⊢
      rw [← hstep]
      simp only [List.length_cons]
      have hlen := List.length_erase_of_mem hc
      have hpos : 0 < p.allocated.length := List.length_pos.mpr (by
        intro he; rw [he] at hc; exact absurd hc (List.not_mem_nil c))
      rw [hlen]
      omega
    · rw [if_neg hc] at hstep
      exact absurd hstep (by simp)

/-- C3 witness: the conservation law after one allocation from a fresh pool. -/
theorem mempool_conservation_witness :
    MemPool.conserved { capacity := 2, freeList := [1], allocated := [0] } :=
  mempool_conservation _
    (@MemPool.Reachable.alloc (MemPool.init 2)
      { capacity := 2, freeList := [1], allocated := [0] } 0
      (MemPool.Reachable.init 2) (by decide))

/-- C5: a non-REGISTER message whose session id differs from the session id
recorded for its process is discarded: the daemon state, and with it every
live process and its ports, is unchanged. -/
theorem stale_session_discarded (st : DaemonState) (msg : IpcMessage)
    (h : isStaleNonRegister st msg = true) : dispatch st msg = st := by
  cases msg with
  | REGISTER name => simp [isStaleNonRegister] at h
  | KEEP_ALIVE name session now =>
    simp only [isStaleNonRegister, Bool.not_eq_true'] at h
    simp [dispatch, h]
  | CREATE_PUBLISHER name session port =>
    simp only [isStaleNonRegister, Bool.not_eq_true'] at h
    simp [dispatch, h]
  | UNREGISTER name session =>
    simp only [isStaleNonRegister, Bool.not_eq_true'] at h
    simp [dispatch, h]

/-- C5 witness: a keep-alive carrying the predecessor's session id 1 is
discarded by a daemon that recorded session id 2 for the reborn process. -/
theorem stale_session_discarded_witness :
    dispatch
      { processes := [{ name := "A", sessionId := 2, timestamp := 0, ports := [] }],
        sessionCounter := 2 }
      (IpcMessage.KEEP_ALIVE "A" 1 99) =
      { processes := [{ name := "A", sessionId := 2, timestamp := 0, ports := [] }],
        sessionCounter := 2 } :=
  stale_session_discarded _ _ (by decide)

/-- C6: after add_subscriber(q); remove_subscriber(q), a second
remove_subscriber(q) is a no-op: the distributor state is unchanged. -/
theorem remove_subscriber_idempotent (d : ChunkDistributor) (q : Nat)
    (d1 : ChunkDistributor) (_h : d.add_subscriber q = Except.ok d1) :
    (d1.remove_subscriber q).remove_subscriber q = d1.remove_subscriber q := by
  simp [ChunkDistributor.remove_subscriber, List.filter_filter]

/-- C6 witness: concrete add; remove; remove on an empty distributor. -/
theorem remove_subscriber_idempotent_witness :
    (ChunkDistributor.remove_subscriber
      (ChunkDistributor.remove_subscriber
        { maxSubscribers := 2, historyCapacity := 0, subscriberQueues := [5], history := [] } 5) 5) =
    ChunkDistributor.remove_subscriber
      { maxSubscribers := 2, historyCapacity := 0, subscriberQueues := [5], history := [] } 5 :=
  remove_subscriber_idempotent
    { maxSubscribers := 2, historyCapacity := 0, subscriberQueues := [], history := [] } 5
    { maxSubscribers := 2, historyCapacity := 0, subscriberQueues := [5], history := [] }
    rfl

/-- C7: in the S1 configuration (queue capacity 8, DISCARD_OLDEST, payloads
1, 2, 3 published), take() returns 1, 2, 3 in order and then fails with
NO_CHUNK_AVAILABLE. -/
theorem s1_take_sequence :
    ∃ q1 q2 q3 : ChunkQueue,
      s1Queue.take = Except.ok (1, q1) ∧
      q1.take = Except.ok (2, q2) ∧
      q2.take = Except.ok (3, q3) ∧
      q3.take = Except.error ChunkReceiveResult.NO_CHUNK_AVAILABLE := by
  refine ⟨{ capacity := 8, policy := QueueFullPolicy.DISCARD_OLDEST_DATA, entries := [2, 3] },
    { capacity := 8, policy := QueueFullPolicy.DISCARD_OLDEST_DATA, entries := [3] },
    { capacity := 8, policy := QueueFullPolicy.DISCARD_OLDEST_DATA, entries := [] },
    rfl, rfl, rfl, rfl⟩

/-- C8: the capacity bounds are fixed in the build-time constants table, and
the allocation budget (max chunks allocated per sender) defaults to 8. -/
theorem deployment_constants_defaults :
    defaultDeployment.IOX_MAX_CHUNKS_ALLOCATE_PER_SENDER = 8 ∧
    defaultDeployment.IOX_MAX_PORT_NUMBER = 1024 ∧
    defaultDeployment.IOX_MAX_SUBSCRIBERS_PER_PUBLISHER = 256 ∧
    defaultDeployment.IOX_MAX_HISTORY_CAPACITY_OF_CHUNK_DISTRIBUTOR = 16 ∧
    defaultDeployment.IOX_MAX_INTERFACE_NUMBER = 4 :=
  ⟨rfl, rfl, rfl, rfl, rfl⟩

/-- C2 witness: register A (session 1), unregister, register again; the new
session id is strictly greater than 1. -/
theorem register_unregister_register_monotonic_witness :
    ∃ sid2 st2,
      registerProcess
        (unregisterProcess
          { processes := [DaemonProcess.mk "A" 1 0 []], sessionCounter := 1 } "A") "A" =
        some (sid2, st2) ∧ 1 < sid2 :=
  register_unregister_register_monotonic { processes := [], sessionCounter := 0 } "A" 1
    { processes := [DaemonProcess.mk "A" 1 0 []], sessionCounter := 1 } rfl

/-- An unlink that reaches `shm_unlink` was performed with ownership. -/
theorem unlinked_implies_ownership (s2 : SharedMemory) (os2 : OsState)
    (h : (s2.unlink os2).unlinked = true) : s2.m_hasOwnership = true := by
  unfold SharedMemory.unlink at h
  split at h
  · rename_i hcond
    exact (Bool.and_eq_true _ _ ▸ hcond).2
  · simp at h

/-- C9: after a successful SharedMemory::open, hasOwnership holds exactly
when the call itself created the OS object, ftruncate was invoked only with
ownership, and shm_unlink is reached only with ownership. -/
theorem hasOwnership_iff_created (s s2 : SharedMemory) (accessMode : AccessMode)
    (policy : Policy) (os os2 : OsState)
    (h : (s.open_ accessMode policy os).success = true) :
    ((s.open_ accessMode policy os).self.m_hasOwnership =
      (s.open_ accessMode policy os).created) ∧
    ((s.open_ accessMode policy os).ftruncated = true →
      (s.open_ accessMode policy os).self.m_hasOwnership = true) ∧
    ((s2.unlink os2).unlinked = true → s2.m_hasOwnership = true) := by
  refine ⟨?_, ?_, unlinked_implies_ownership s2 os2⟩ <;>
  · cases policy <;>
      by_cases hmem : s.m_name ∈ os.names <;>
        simp_all [SharedMemory.open_, SharedMemory.getOflagsFor, iox_shm_open,
          os_shm_unlink, SharedMemory.errnoToEnum, List.mem_filter]

/-- C9 witness: an exclusive creation on a fresh OS state owns and created
the object and ran ftruncate; a concrete owning unlink has ownership. -/
theorem hasOwnership_iff_created_witness :
    ((SharedMemory.mk true "/a" false (-1) none).open_ AccessMode.READ_WRITE
      Policy.EXCLUSIVE_CREATE (OsState.mk [] 0 [])).self.m_hasOwnership =
      ((SharedMemory.mk true "/a" false (-1) none).open_ AccessMode.READ_WRITE
        Policy.EXCLUSIVE_CREATE (OsState.mk [] 0 [])).created ∧
    (SharedMemory.mk true "/a" true 0 none).m_hasOwnership = true := by
  have h := hasOwnership_iff_created (SharedMemory.mk true "/a" false (-1) none)
    (SharedMemory.mk true "/a" true 0 none) AccessMode.READ_WRITE
    Policy.EXCLUSIVE_CREATE (OsState.mk [] 0 []) (OsState.mk ["/a"] 1 [0]) rfl
  exact ⟨h.1, h.2.2 rfl⟩

/-- C10: constructing a SharedMemory with an empty name fails with
EMPTY_NAME, and with a name lacking the leading slash fails with
NAME_WITHOUT_LEADING_SLASH; in both cases shm_open is never attempted, the
object stays uninitialized and the OS state is untouched. -/
theorem ctor_name_validation (name : String) (accessMode : AccessMode)
    (policy : Policy) (os : OsState) :
    (name = "" →
      (SharedMemory.construct name accessMode policy os).self.m_isInitialized = false ∧
      (SharedMemory.construct name accessMode policy os).self.m_errorValue =
        some SharedMemoryError.EMPTY_NAME ∧
      (SharedMemory.construct name accessMode policy os).shmOpenAttempted = false ∧
      (SharedMemory.construct name accessMode policy os).os = os) ∧
    (name ≠ "" → name.data.head? ≠ some '/' →
      (SharedMemory.construct name accessMode policy os).self.m_isInitialized = false ∧
      (SharedMemory.construct name accessMode policy os).self.m_errorValue =
        some SharedMemoryError.NAME_WITHOUT_LEADING_SLASH ∧
      (SharedMemory.construct name accessMode policy os).shmOpenAttempted = false ∧
      (SharedMemory.construct name accessMode policy os).os = os) := by
  constructor
  · intro h1
    simp [SharedMemory.construct, h1]
  · intro h1 h2
    simp [SharedMemory.construct, h1, h2]

/-- C10 witness: the empty name and the name "x" without a leading slash. -/
theorem ctor_name_validation_witness :
    (SharedMemory.construct "" AccessMode.READ_WRITE Policy.CREATE_OR_OPEN
      (OsState.mk [] 0 [])).self.m_errorValue = some SharedMemoryError.EMPTY_NAME ∧
    (SharedMemory.construct "x" AccessMode.READ_WRITE Policy.CREATE_OR_OPEN
      (OsState.mk [] 0 [])).self.m_errorValue =
      some SharedMemoryError.NAME_WITHOUT_LEADING_SLASH :=
  ⟨((ctor_name_validation "" AccessMode.READ_WRITE Policy.CREATE_OR_OPEN
      (OsState.mk [] 0 [])).1 rfl).2.1,
   ((ctor_name_validation "x" AccessMode.READ_WRITE Policy.CREATE_OR_OPEN
      (OsState.mk [] 0 [])).2 (by decide) (by decide)).2.1⟩

/-- C1 counterexample: with the CREATE_OR_OPEN policy the source allows, an
open of a not-yet-existing name performed by any role (shm_open is
role-agnostic) creates the segment instead of failing. -/
theorem create_or_open_creates_counterexample :
    (SharedMemory.construct "/seg" AccessMode.READ_WRITE Policy.CREATE_OR_OPEN
      (OsState.mk [] 3 [])).created = true ∧
    (SharedMemory.construct "/seg" AccessMode.READ_WRITE Policy.CREATE_OR_OPEN
      (OsState.mk [] 3 [])).self.m_isInitialized = true ∧
    (SharedMemory.construct "/seg" AccessMode.READ_WRITE Policy.CREATE_OR_OPEN
      (OsState.mk [] 3 [])).os.names = ["/seg"] := by
  refine ⟨rfl, rfl, rfl⟩

/-- C1 amended: an open with policy OPEN on a not-yet-existing name fails
(DOES_NOT_EXIST at the shm layer; the runtime surfaces it as the daemon
being unavailable) and creates no segment. -/
theorem open_policy_never_creates (name : String) (accessMode : AccessMode)
    (os : OsState) (h : name ∉ os.names) :
    (SharedMemory.construct name accessMode Policy.OPEN os).created = false ∧
    (SharedMemory.construct name accessMode Policy.OPEN os).os = os ∧
    (SharedMemory.construct name accessMode Policy.OPEN os).self.m_isInitialized = false := by
  unfold SharedMemory.construct
  split_ifs with h1 h2 <;>
    simp [SharedMemory.open_, iox_shm_open, SharedMemory.getOflagsFor, h,
      SharedMemory.errnoToEnum]

/-- C1 amended witness: opening "/seg" with policy OPEN on an empty OS state. -/
theorem open_policy_never_creates_witness :
    (SharedMemory.construct "/seg" AccessMode.READ_WRITE Policy.OPEN
      (OsState.mk [] 0 [])).created = false ∧
    (SharedMemory.construct "/seg" AccessMode.READ_WRITE Policy.OPEN
      (OsState.mk [] 0 [])).os = OsState.mk [] 0 [] ∧
    (SharedMemory.construct "/seg" AccessMode.READ_WRITE Policy.OPEN
      (OsState.mk [] 0 [])).self.m_isInitialized = false :=
  open_policy_never_creates "/seg" AccessMode.READ_WRITE (OsState.mk [] 0 [])
    (by simp)

/-- Destroying an initialized, owning shared-memory object unlinks its name,
closes its descriptor and resets the member state. -/
theorem destroy_unlinks (s : SharedMemory) (os : OsState)
    (hInit : s.m_isInitialized = true) (hOwn : s.m_hasOwnership = true) :
    s.m_name ∉ (s.destroy os).2.names ∧
    s.m_handle ∉ (s.destroy os).2.openFds ∧
    (s.destroy os).1.m_isInitialized = false ∧
    (s.destroy os).1.m_handle = -1 := by
  unfold SharedMemory.destroy SharedMemory.close SharedMemory.unlink
    SharedMemory.unlinkIfExist os_shm_unlink iox_close SharedMemory.reset
  by_cases hmem : s.m_name ∈ os.names <;>
    simp [hInit, hOwn, hmem, List.mem_filter]

/-- A construction that created the OS object succeeded with ownership and
carries the requested name. -/
theorem construct_created (name : String) (accessMode : AccessMode)
    (policy : Policy) (os : OsState)
    (h : (SharedMemory.construct name accessMode policy os).created = true) :
    (SharedMemory.construct name accessMode policy os).self.m_isInitialized = true ∧
    (SharedMemory.construct name accessMode policy os).self.m_hasOwnership = true ∧
    (SharedMemory.construct name accessMode policy os).self.m_name = name := by
  unfold SharedMemory.construct at h ⊢
  split_ifs at h ⊢ with h1 h2
  cases policy <;> by_cases hmem : name ∈ os.names <;>
    simp_all [SharedMemory.open_, iox_shm_open, SharedMemory.getOflagsFor,
      os_shm_unlink, SharedMemory.errnoToEnum, SharedMemory.defaultState,
      List.mem_filter]

/-- C4: a shared-memory object whose construction created (not merely
opened) the OS object is, on destruction, closed (its descriptor is no
longer open, the stored handle reset) and its OS-level name is unlinked. -/
theorem created_segment_unlinked_on_destroy (name : String)
    (accessMode : AccessMode) (policy : Policy) (os : OsState)
    (h : (SharedMemory.construct name accessMode policy os).created = true) :
    name ∉ (SharedMemory.destroy
      (SharedMemory.construct name accessMode policy os).self
      (SharedMemory.construct name accessMode policy os).os).2.names ∧
    (SharedMemory.construct name accessMode policy os).self.m_handle ∉
      (SharedMemory.destroy
        (SharedMemory.construct name accessMode policy os).self
        (SharedMemory.construct name accessMode policy os).os).2.openFds ∧
    (SharedMemory.destroy
      (SharedMemory.construct name accessMode policy os).self
      (SharedMemory.construct name accessMode policy os).os).1.m_isInitialized = false ∧
    (SharedMemory.destroy
      (SharedMemory.construct name accessMode policy os).self
      (SharedMemory.construct name accessMode policy os).os).1.m_handle = -1 := by
  obtain ⟨hInit, hOwn, hname⟩ := construct_created name accessMode policy os h
  have hd := destroy_unlinks (SharedMemory.construct name accessMode policy os).self
    (SharedMemory.construct name accessMode policy os).os hInit hOwn
  rw [hname] at hd
  exact hd

/-- C4 witness: the daemon-style exclusive creation of "/seg" on a fresh OS
state, followed by destruction. -/
theorem created_segment_unlinked_on_destroy_witness :
    "/seg" ∉ (SharedMemory.destroy
      (SharedMemory.construct "/seg" AccessMode.READ_WRITE Policy.EXCLUSIVE_CREATE
        (OsState.mk [] 0 [])).self
      (SharedMemory.construct "/seg" AccessMode.READ_WRITE Policy.EXCLUSIVE_CREATE
        (OsState.mk [] 0 [])).os).2.names ∧
    (SharedMemory.construct "/seg" AccessMode.READ_WRITE Policy.EXCLUSIVE_CREATE
      (OsState.mk [] 0 [])).self.m_handle ∉
      (SharedMemory.destroy
        (SharedMemory.construct "/seg" AccessMode.READ_WRITE Policy.EXCLUSIVE_CREATE
          (OsState.mk [] 0 [])).self
        (SharedMemory.construct "/seg" AccessMode.READ_WRITE Policy.EXCLUSIVE_CREATE
          (OsState.mk [] 0 [])).os).2.openFds :=
  ⟨(created_segment_unlinked_on_destroy "/seg" AccessMode.READ_WRITE
      Policy.EXCLUSIVE_CREATE (OsState.mk [] 0 []) rfl).1,
   (created_segment_unlinked_on_destroy "/seg" AccessMode.READ_WRITE
      Policy.EXCLUSIVE_CREATE (OsState.mk [] 0 []) rfl).2.1⟩

end Iceoryx
